import Mathlib

/-!
Shallow embedding of `mc-sign-extractor` (src/src/main.rs, src/src/types.rs).

The program reads a Minecraft save, dispatches on the world version to one of
three chunk adapters, extracts sign block entities and books from chunk NBT,
sorts the results and writes two text reports.

Modelling conventions:
* Rust `String`/`&str` is modelled as `List Char` (`Str`), so that all string
  operations are structurally recursive and kernel-computable; a literal is
  written `"...".data`.
* Rust machine integers `i32` and `i8` are modelled as `Int`; the program
  performs no arithmetic on them, so no overflow is possible.
* `f64` position components are modelled as `ℚ`; the positions appearing in
  the claims are exactly representable.
* A Rust panic (`Option::unwrap`/`Result::unwrap` on a missing value,
  out-of-bounds `Vec` indexing) is modelled by an `Option` result, `none`
  meaning the panic.
-/

namespace MC

/-- Rust strings, modelled as their character lists. -/
abbrev Str := List Char

/-- Rust `str::ends_with`: suffix test. -/
def endsWith (s suffix : Str) : Bool := suffix.isSuffixOf s

/-- Rust `str::to_lowercase`, restricted to the ASCII range (`Char.toLower`);
the Minecraft identifiers this program compares are ASCII. -/
def toLowercase (s : Str) : Str := s.map Char.toLower

/-- `LevelDatDataVersion` (main.rs lines 31-39): the version descriptor read
from `level.dat`, or the synthetic legacy descriptor with `name = "old"`. -/
structure LevelDatDataVersion where
  id : Int
  name : Str
  snapshot : Bool
deriving DecidableEq

/-- `Book` (main.rs lines 138-146): the `tag` compound of a book item. -/
structure Book where
  pages : Option (List Str)
  title : Option Str
  author : Option Str
deriving DecidableEq

/-- `Item` (main.rs lines 88-98). -/
structure Item where
  id : Str
  slot : Option Int
  count : Int
  tag : Option Book
deriving DecidableEq

/-- `ChunkLevelTileEntities` (main.rs lines 65-86): one block entity. -/
structure ChunkLevelTileEntities where
  id : Str
  x : Int
  y : Int
  z : Int
  text1 : Option Str
  text2 : Option Str
  text3 : Option Str
  text4 : Option Str
  items : Option (List Item)
deriving DecidableEq

/-- `Entity` (main.rs lines 55-63): a world entity with an f64 position. -/
structure Entity where
  id : Str
  pos : List ℚ
  item : Option Item
deriving DecidableEq

/-- `BookWithPos` (main.rs lines 148-154). -/
structure BookWithPos where
  book : Book
  x : Int
  y : Int
  z : Int
deriving DecidableEq

/-- `ChunkLevel` (main.rs lines 47-53). -/
structure ChunkLevel where
  tile_entities : List ChunkLevelTileEntities
  entities : List Entity
deriving DecidableEq

/-- `Chunk` (main.rs lines 41-45): the legacy chunk schema. -/
structure Chunk where
  level : ChunkLevel
deriving DecidableEq

/-- `Chunk1_17Level` (main.rs lines 114-118). -/
structure Chunk1_17Level where
  block_entities : List ChunkLevelTileEntities
deriving DecidableEq

/-- `Chunk1_17` (main.rs lines 108-112): the 1.13-1.17 chunk schema. -/
structure Chunk1_17 where
  level : Chunk1_17Level
deriving DecidableEq

/-- `Chunk1_18` (main.rs lines 100-104): the 1.18+ chunk schema. -/
structure Chunk1_18 where
  block_entities : List ChunkLevelTileEntities
deriving DecidableEq

/-- `SignExtra` (main.rs lines 121-130): one entry of a sign line's `extra`. -/
structure SignExtra where
  text : Str
  color : Option Str
  bold : Option Bool
  italic : Option Bool
  underlined : Option Bool
  strikethrough : Option Bool
  obfuscated : Option Bool
deriving DecidableEq

/-- `SignText` (main.rs lines 132-136): the JSON shape of a modern sign line. -/
structure SignText where
  text : Str
  extra : Option (List SignExtra)
deriving DecidableEq

/-- The three chunk-schema branches of `extract_signs_from_mca`. -/
inductive AdapterPath where
  | chunk1_18 : AdapterPath
  | chunk1_17 : AdapterPath
  | legacy : AdapterPath
deriving DecidableEq

/-- The version dispatch of `extract_signs_from_mca` (main.rs lines 516, 550,
595): `if version.id > 2730 && version.name != "old"` takes the 1.18 branch,
`else if version.id > 2681 && version.name != "old"` takes the 1.17 branch,
and the final `else` takes the legacy branch. -/
def choosePath (version : LevelDatDataVersion) : AdapterPath :=
  if version.id > 2730 ∧ version.name ≠ "old".data then AdapterPath.chunk1_18
  else if version.id > 2681 ∧ version.name ≠ "old".data then
    AdapterPath.chunk1_17
  else AdapterPath.legacy

/-- The Rust `f64 as i32` cast applied at main.rs lines 653-655: truncation
toward zero, saturating at the `i32` bounds.  (`Int.tdiv` truncates toward
zero, matching the cast for the finite values representable in `ℚ`.) -/
def f64AsI32 (q : ℚ) : Int :=
  max (-(2 ^ 31)) (min (2 ^ 31 - 1) (Int.tdiv q.num (q.den : Int)))

/-- The item loop of the 1.18 branch (main.rs lines 537-546): every item whose
lowercased id ends with `"book"` but not with `"enchanted_book"` nor with
`":book"` is emitted as a `BookWithPos` at the block entity's coordinates with
`book := item.tag.unwrap()` — `none` models the panic of that `unwrap` when
the tag is absent.  No `pages` check is performed in this branch. -/
def booksFromItems1_18 (x y z : Int) : List Item → Option (List BookWithPos)
  | [] => some []
  | item :: rest =>
    if endsWith (toLowercase item.id) "book".data &&
        !(endsWith (toLowercase item.id) "enchanted_book".data) &&
        !(endsWith (toLowercase item.id) ":book".data) then
      match item.tag with
      | none => none
      | some tag =>
        match booksFromItems1_18 x y z rest with
        | none => none
        | some bs => some ({ book := tag, x := x, y := y, z := z } :: bs)
    else booksFromItems1_18 x y z rest

/-- Processing of one block entity in the 1.18 branch (main.rs lines 528-549):
`if block_entity.id.ends_with("sign")` (case-sensitive) push it to the signs,
`else if` its `Items` list is present scan it for books. -/
def blockEntityStep1_18 (be : ChunkLevelTileEntities) :
    Option (List ChunkLevelTileEntities × List BookWithPos) :=
  if endsWith be.id "sign".data then some ([be], [])
  else
    match be.items with
    | none => some ([], [])
    | some items =>
      match booksFromItems1_18 be.x be.y be.z items with
      | none => none
      | some bs => some ([], bs)

/-- The item loop of the 1.17 branch (main.rs lines 581-590); the source
duplicates the 1.18 loop verbatim, again with the unchecked `tag.unwrap()`. -/
def booksFromItems1_17 (x y z : Int) : List Item → Option (List BookWithPos)
  | [] => some []
  | item :: rest =>
    if endsWith (toLowercase item.id) "book".data &&
        !(endsWith (toLowercase item.id) "enchanted_book".data) &&
        !(endsWith (toLowercase item.id) ":book".data) then
      match item.tag with
      | none => none
      | some tag =>
        match booksFromItems1_17 x y z rest with
        | none => none
        | some bs => some ({ book := tag, x := x, y := y, z := z } :: bs)
    else booksFromItems1_17 x y z rest

/-- Processing of one block entity in the 1.17 branch (main.rs lines 572-593),
textually identical to the 1.18 branch. -/
def blockEntityStep1_17 (be : ChunkLevelTileEntities) :
    Option (List ChunkLevelTileEntities × List BookWithPos) :=
  if endsWith be.id "sign".data then some ([be], [])
  else
    match be.items with
    | none => some ([], [])
    | some items =>
      match booksFromItems1_17 be.x be.y be.z items with
      | none => none
      | some bs => some ([], bs)

/-- The item loop of the legacy tile-entity branch (main.rs lines 614-631):
same candidate predicate, but an item without a `tag` or whose tag has no
`pages` is skipped with `continue` instead of being unwrapped. -/
def booksFromItemsLegacy (x y z : Int) : List Item → List BookWithPos
  | [] => []
  | item :: rest =>
    if endsWith (toLowercase item.id) "book".data &&
        !(endsWith (toLowercase item.id) "enchanted_book".data) &&
        !(endsWith (toLowercase item.id) ":book".data) then
      match item.tag with
      | none => booksFromItemsLegacy x y z rest
      | some book =>
        match book.pages with
        | none => booksFromItemsLegacy x y z rest
        | some _ =>
          { book := book, x := x, y := y, z := z } ::
            booksFromItemsLegacy x y z rest
    else booksFromItemsLegacy x y z rest

/-- Processing of one tile entity in the legacy branch (main.rs lines
605-634): the sign test lowercases the id (`tile_entity.id.to_lowercase()
.ends_with("sign")`) because pre-1.13 ids are capitalized. -/
def tileEntityStepLegacy (te : ChunkLevelTileEntities) :
    List ChunkLevelTileEntities × List BookWithPos :=
  if endsWith (toLowercase te.id) "sign".data then ([te], [])
  else
    match te.items with
    | none => ([], [])
    | some items => ([], booksFromItemsLegacy te.x te.y te.z items)

/-- Processing of one entity in the legacy branch (main.rs lines 636-659): an
entity carrying an item whose lowercased id ends with `"book"` but not with
`"enchanted_book"` (no `":book"` exclusion here), with a tag that has pages,
yields a book at the `as i32` cast of `pos[0..2]`; `none` models the panic of
the `entity.pos[i]` indexing when `Pos` has fewer than three components. -/
def entityStepLegacy (e : Entity) : Option (List BookWithPos) :=
  match e.item with
  | none => some []
  | some item =>
    if endsWith (toLowercase item.id) "book".data &&
        !(endsWith (toLowercase item.id) "enchanted_book".data) then
      match item.tag with
      | none => some []
      | some book =>
        match book.pages with
        | none => some []
        | some _ =>
          match e.pos.get? 0, e.pos.get? 1, e.pos.get? 2 with
          | some p0, some p1, some p2 =>
            some [{ book := book,
                    x := f64AsI32 p0, y := f64AsI32 p1, z := f64AsI32 p2 }]
          | _, _, _ => none
    else some []

/-- The block-entity loop of the 1.18 branch over a whole chunk. -/
def blockEntities1_18 :
    List ChunkLevelTileEntities →
    Option (List ChunkLevelTileEntities × List BookWithPos)
  | [] => some ([], [])
  | be :: rest =>
    match blockEntityStep1_18 be with
    | none => none
    | some (s, b) =>
      match blockEntities1_18 rest with
      | none => none
      | some (ss, bs) => some (s ++ ss, b ++ bs)

/-- The 1.18 adapter applied to one decoded chunk. -/
def processChunk1_18 (c : Chunk1_18) :
    Option (List ChunkLevelTileEntities × List BookWithPos) :=
  blockEntities1_18 c.block_entities

/-- The block-entity loop of the 1.17 branch over a whole chunk. -/
def blockEntities1_17 :
    List ChunkLevelTileEntities →
    Option (List ChunkLevelTileEntities × List BookWithPos)
  | [] => some ([], [])
  | be :: rest =>
    match blockEntityStep1_17 be with
    | none => none
    | some (s, b) =>
      match blockEntities1_17 rest with
      | none => none
      | some (ss, bs) => some (s ++ ss, b ++ bs)

/-- The 1.17 adapter applied to one decoded chunk. -/
def processChunk1_17 (c : Chunk1_17) :
    Option (List ChunkLevelTileEntities × List BookWithPos) :=
  blockEntities1_17 c.level.block_entities

/-- The tile-entity loop of the legacy branch over a whole chunk. -/
def tileEntitiesLegacy :
    List ChunkLevelTileEntities →
    List ChunkLevelTileEntities × List BookWithPos
  | [] => ([], [])
  | te :: rest =>
    let (s, b) := tileEntityStepLegacy te
    let (ss, bs) := tileEntitiesLegacy rest
    (s ++ ss, b ++ bs)

/-- The entity loop of the legacy branch over a whole chunk. -/
def entitiesLegacy : List Entity → Option (List BookWithPos)
  | [] => some []
  | e :: rest =>
    match entityStepLegacy e with
    | none => none
    | some b =>
      match entitiesLegacy rest with
      | none => none
      | some bs => some (b ++ bs)

/-- The legacy adapter applied to one decoded chunk (tile entities first,
then entities, as in main.rs lines 605-659). -/
def processChunkLegacy (c : Chunk) :
    Option (List ChunkLevelTileEntities × List BookWithPos) :=
  let (signs, books) := tileEntitiesLegacy c.level.tile_entities
  match entitiesLegacy c.level.entities with
  | none => none
  | some ebooks => some (signs, books ++ ebooks)

/-- C1: the legacy adapter is chosen exactly when `name = "old"` or
`id ≤ 2681`; the 1.17 adapter exactly when `name ≠ "old"` and
`2681 < id ≤ 2730`; the 1.18 adapter exactly when `name ≠ "old"` and
`id > 2730`; in particular `id = 2730` takes the 1.17 path and `id = 2731`
takes the 1.18 path. -/
theorem version_dispatch (v : LevelDatDataVersion) :
    (choosePath v = AdapterPath.legacy ↔
      (v.name = "old".data ∨ v.id ≤ 2681)) ∧
    (choosePath v = AdapterPath.chunk1_17 ↔
      (v.name ≠ "old".data ∧ 2681 < v.id ∧ v.id ≤ 2730)) ∧
    (choosePath v = AdapterPath.chunk1_18 ↔
      (v.name ≠ "old".data ∧ 2730 < v.id)) ∧
    choosePath { id := 2730, name := "1.17.1".data, snapshot := false } =
      AdapterPath.chunk1_17 ∧
    choosePath { id := 2731, name := "1.18".data, snapshot := false } =
      AdapterPath.chunk1_18 := by
  refine ⟨?_, ?_, ?_, by decide, by decide⟩ <;>
    · unfold choosePath
      by_cases hn : v.name = "old".data <;> by_cases h30 : v.id > 2730 <;>
        by_cases h81 : v.id > 2681 <;>
        simp only [hn, h30, h81, if_pos, if_neg, and_true, and_false, true_and,
          false_and, not_true, not_false_iff, ne_eq, if_true, if_false] <;>
        simp_all <;> omega

/-- C10: a block entity classified as a sign is never scanned for books: in
each adapter branch, when that branch's sign test matches, the step yields
exactly that sign and no books — even if an `Items` list with book items is
present, nothing is emitted from it. -/
theorem sign_classification_precedence (be : ChunkLevelTileEntities) :
    (endsWith be.id "sign".data = true →
      blockEntityStep1_18 be = some ([be], []) ∧
      blockEntityStep1_17 be = some ([be], [])) ∧
    (endsWith (toLowercase be.id) "sign".data = true →
      tileEntityStepLegacy be = ([be], [])) := by
  constructor
  · intro h
    constructor <;> simp [blockEntityStep1_18, blockEntityStep1_17, h]
  · intro h
    simp [tileEntityStepLegacy, h]

/-- A sign-id block entity whose `Items` list contains a written book,
used to instantiate `sign_classification_precedence`. -/
def oakSignWithBookItems : ChunkLevelTileEntities :=
  { id := "minecraft:oak_sign".data, x := 10, y := 64, z := -5,
    text1 := none, text2 := none, text3 := none, text4 := none,
    items := some [{ id := "minecraft:written_book".data, slot := none,
                     count := 1,
                     tag := some { pages := some ["p".data], title := none,
                                   author := none } }] }

theorem sign_classification_precedence_witness :
    (endsWith oakSignWithBookItems.id "sign".data = true ∧
     endsWith (toLowercase oakSignWithBookItems.id) "sign".data = true) ∧
    blockEntityStep1_18 oakSignWithBookItems =
      some ([oakSignWithBookItems], []) ∧
    blockEntityStep1_17 oakSignWithBookItems =
      some ([oakSignWithBookItems], []) ∧
    tileEntityStepLegacy oakSignWithBookItems = ([oakSignWithBookItems], []) :=
  ⟨⟨by decide, by decide⟩,
   ((sign_classification_precedence oakSignWithBookItems).1 (by decide)).1,
   ((sign_classification_precedence oakSignWithBookItems).1 (by decide)).2,
   (sign_classification_precedence oakSignWithBookItems).2 (by decide)⟩

/-- C3 counterexample: the sign test of the modern branches is
case-sensitive.  The block entity id `"Sign"` lowercases to a string ending
in `"sign"`, yet neither the 1.18 nor the 1.17 branch appends it to the
signs list (both return no signs for it). -/
theorem sign_case_counterexample :
    endsWith (toLowercase "Sign".data) "sign".data = true ∧
    blockEntityStep1_18
      { id := "Sign".data, x := 0, y := 0, z := 0, text1 := none,
        text2 := none, text3 := none, text4 := none, items := none } =
      some ([], []) ∧
    blockEntityStep1_17
      { id := "Sign".data, x := 0, y := 0, z := 0, text1 := none,
        text2 := none, text3 := none, text4 := none, items := none } =
      some ([], []) := by decide

/-- C3 amended: only the legacy branch lowercases the id before testing for
the `"sign"` suffix; the 1.18 and 1.17 branches test the id as is.  In each
branch the block entity is appended to the signs list exactly when that
branch's test succeeds. -/
theorem sign_classification_casing (be : ChunkLevelTileEntities) :
    (blockEntityStep1_18 be = some ([be], []) ↔
      endsWith be.id "sign".data = true) ∧
    (blockEntityStep1_17 be = some ([be], []) ↔
      endsWith be.id "sign".data = true) ∧
    (tileEntityStepLegacy be = ([be], []) ↔
      endsWith (toLowercase be.id) "sign".data = true) := by
  refine ⟨?_, ?_, ?_⟩
  · unfold blockEntityStep1_18
    by_cases h : endsWith be.id "sign".data = true
    · simp [h]
    · simp only [h, Bool.false_eq_true, if_false, iff_false]
      cases hi : be.items with
      | none => simp
      | some items =>
        cases hb : booksFromItems1_18 be.x be.y be.z items <;> simp [hb]
  · unfold blockEntityStep1_17
    by_cases h : endsWith be.id "sign".data = true
    · simp [h]
    · simp only [h, Bool.false_eq_true, if_false, iff_false]
      cases hi : be.items with
      | none => simp
      | some items =>
        cases hb : booksFromItems1_17 be.x be.y be.z items <;> simp [hb]
  · unfold tileEntityStepLegacy
    by_cases h : endsWith (toLowercase be.id) "sign".data = true
    · simp [h]
    · simp only [h, Bool.false_eq_true, if_false, iff_false]
      cases hi : be.items with
      | none => simp
      | some items => simp

/-- C2 at its failing inputs, in the 1.18 branch (the 1.17 branch is
identical): a book-candidate item without a `tag` makes the worker panic at
`item.tag.unwrap()` (modelled `none`), and a candidate whose tag has no
`pages` is emitted as a book-with-position with `pages = none`; the legacy
item loop skips both.  This contradicts the claim that in every adapter path
such items are skipped and every emitted book has `pages.is_some()`. -/
theorem modern_book_missing_tag_or_pages :
    blockEntityStep1_18
      { id := "minecraft:chest".data, x := 0, y := 70, z := 0,
        text1 := none, text2 := none, text3 := none, text4 := none,
        items := some [{ id := "minecraft:written_book".data, slot := none,
                         count := 1, tag := none }] } = none ∧
    blockEntityStep1_17
      { id := "minecraft:chest".data, x := 0, y := 70, z := 0,
        text1 := none, text2 := none, text3 := none, text4 := none,
        items := some [{ id := "minecraft:written_book".data, slot := none,
                         count := 1, tag := none }] } = none ∧
    blockEntityStep1_18
      { id := "minecraft:chest".data, x := 0, y := 70, z := 0,
        text1 := none, text2 := none, text3 := none, text4 := none,
        items := some [{ id := "minecraft:written_book".data, slot := none,
                         count := 1,
                         tag := some { pages := none, title := none,
                                       author := none } }] } =
      some ([], [{ book := { pages := none, title := none, author := none },
                   x := 0, y := 70, z := 0 }]) ∧
    booksFromItemsLegacy 0 70 0
      [{ id := "minecraft:written_book".data, slot := none, count := 1,
         tag := none },
       { id := "minecraft:written_book".data, slot := none, count := 1,
         tag := some { pages := none, title := none, author := none } }] =
      [] := by decide

/-- C4 counterexample: the legacy entity path does not exclude the raw base
item.  A dropped item entity with id `minecraft:book` (lowercased id ends
with `":book"`) whose tag has pages is emitted as a book-with-position. -/
theorem entity_base_book_counterexample :
    endsWith (toLowercase "minecraft:book".data) ":book".data = true ∧
    entityStepLegacy
      { id := "minecraft:item".data,
        pos := [mkRat 1 1, mkRat 2 1, mkRat 3 1],
        item := some { id := "minecraft:book".data, slot := none, count := 1,
                       tag := some { pages := some ["p".data], title := none,
                                     author := none } } } =
      some [{ book := { pages := some ["p".data], title := none,
                        author := none }, x := 1, y := 2, z := 3 }] := by
  decide

/-- C4 amended: the three block-entity item loops exclude items whose
lowercased id ends with `"enchanted_book"` or with `":book"`; the legacy
entity path excludes only `"enchanted_book"`, so an entity item with id
`minecraft:book` carrying a tag with pages is emitted. -/
theorem book_predicate_per_path (x y z : Int) (item : Item)
    (rest : List Item) (e : Entity) (b : Book) (ps : List Str)
    (q0 q1 q2 : ℚ) :
    (endsWith (toLowercase item.id) "enchanted_book".data = true ∨
       endsWith (toLowercase item.id) ":book".data = true →
      booksFromItems1_18 x y z (item :: rest) =
        booksFromItems1_18 x y z rest ∧
      booksFromItems1_17 x y z (item :: rest) =
        booksFromItems1_17 x y z rest ∧
      booksFromItemsLegacy x y z (item :: rest) =
        booksFromItemsLegacy x y z rest) ∧
    (e.item = some item →
      endsWith (toLowercase item.id) "enchanted_book".data = true →
      entityStepLegacy e = some []) ∧
    (e.item = some item → item.id = "minecraft:book".data →
      item.tag = some b → b.pages = some ps → e.pos = [q0, q1, q2] →
      entityStepLegacy e =
        some [{ book := b, x := f64AsI32 q0, y := f64AsI32 q1,
                z := f64AsI32 q2 }]) := by
  refine ⟨?_, ?_, ?_⟩
  · rintro (h | h) <;>
      simp [booksFromItems1_18, booksFromItems1_17, booksFromItemsLegacy, h]
  · intro hi h
    simp [entityStepLegacy, hi, h]
  · intro hi hid ht hp hpos
    have hcond : (endsWith (toLowercase "minecraft:book".data) "book".data &&
        !(endsWith (toLowercase "minecraft:book".data)
            "enchanted_book".data)) = true := by decide
    simp [entityStepLegacy, hi, hid, ht, hp, hpos, hcond]

/-- A dropped enchanted-book item, and a dropped base-book item entity, used
to instantiate `book_predicate_per_path`. -/
def enchantedBookItem : Item :=
  { id := "minecraft:enchanted_book".data, slot := none, count := 1,
    tag := some { pages := some ["p".data], title := none, author := none } }

def droppedBaseBookEntity : Entity :=
  { id := "minecraft:item".data,
    pos := [mkRat 7 2, mkRat 64 1, mkRat 9 4],
    item := some { id := "minecraft:book".data, slot := none, count := 1,
                   tag := some { pages := some ["p".data], title := none,
                                 author := none } } }

theorem book_predicate_per_path_witness :
    (booksFromItems1_18 0 0 0 [enchantedBookItem] =
       booksFromItems1_18 0 0 0 [] ∧
     booksFromItems1_17 0 0 0 [enchantedBookItem] =
       booksFromItems1_17 0 0 0 [] ∧
     booksFromItemsLegacy 0 0 0 [enchantedBookItem] =
       booksFromItemsLegacy 0 0 0 []) ∧
    entityStepLegacy droppedBaseBookEntity =
      some [{ book := { pages := some ["p".data], title := none,
                        author := none },
              x := f64AsI32 (mkRat 7 2), y := f64AsI32 (mkRat 64 1),
              z := f64AsI32 (mkRat 9 4) }] :=
  ⟨(book_predicate_per_path 0 0 0 enchantedBookItem []
      droppedBaseBookEntity { pages := none, title := none, author := none }
      [] 0 0 0).1 (Or.inl (by decide)),
   (book_predicate_per_path 0 0 0
      { id := "minecraft:book".data, slot := none, count := 1,
        tag := some { pages := some ["p".data], title := none,
                      author := none } } [] droppedBaseBookEntity
      { pages := some ["p".data], title := none, author := none }
      ["p".data] (mkRat 7 2) (mkRat 64 1) (mkRat 9 4)).2.2
      rfl rfl rfl rfl rfl⟩

/-- C5 counterexample: for a negative non-integral position the emitted
coordinate is the truncation toward zero, not the floor: at
`pos[0] = -5/2` the emitted `x` is `-2` while `⌊-5/2⌋ = -3`. -/
theorem entity_position_counterexample :
    entityStepLegacy
      { id := "minecraft:item".data,
        pos := [mkRat (-5) 2, mkRat 0 1, mkRat 0 1],
        item := some { id := "minecraft:written_book".data, slot := none,
                       count := 1,
                       tag := some { pages := some ["p".data], title := none,
                                     author := none } } } =
      some [{ book := { pages := some ["p".data], title := none,
                        author := none }, x := -2, y := 0, z := 0 }] ∧
    Int.floor (mkRat (-5) 2) = -3 := by
  constructor
  · decide
  · decide

/-- C5 amended: the emitted integer coordinates of a legacy-path entity book
are the Rust `f64 as i32` cast of the three position components — truncation
toward zero (saturating) — and that cast agrees with the mathematical floor
on non-negative in-range components (but not on negative non-integral
ones). -/
theorem entity_position_cast (e : Entity) (item : Item) (b : Book)
    (ps : List Str) (q0 q1 q2 : ℚ) :
    (e.item = some item →
      endsWith (toLowercase item.id) "book".data = true →
      endsWith (toLowercase item.id) "enchanted_book".data = false →
      item.tag = some b → b.pages = some ps → e.pos = [q0, q1, q2] →
      entityStepLegacy e =
        some [{ book := b, x := f64AsI32 q0, y := f64AsI32 q1,
                z := f64AsI32 q2 }]) ∧
    (∀ q : ℚ, 0 ≤ q → q ≤ 2 ^ 31 - 1 → f64AsI32 q = Int.floor q) := by
  constructor
  · intro hi hb hnb ht hp hpos
    simp [entityStepLegacy, hi, hb, hnb, ht, hp, hpos]
  · intro q hq hq'
    have hnum : 0 ≤ q.num := Rat.num_nonneg.mpr hq
    have hden : 0 ≤ (q.den : Int) := Int.ofNat_nonneg _
    have htd : Int.tdiv q.num (q.den : Int) = q.num / (q.den : Int) :=
      Int.tdiv_eq_ediv hnum hden
    have hfl : Int.tdiv q.num (q.den : Int) = Int.floor q := by
      rw [htd, Rat.floor_def]
    have h0 : 0 ≤ Int.floor q := Int.floor_nonneg.mpr hq
    have hub : Int.floor q ≤ 2 ^ 31 - 1 := by
      have h2 : ((2 ^ 31 - 1 : Int) : ℚ) = 2 ^ 31 - 1 := by
        push_cast
        ring
      have hm := Int.floor_mono hq'
      rw [← h2, Int.floor_intCast] at hm
      exact hm
    unfold f64AsI32
    rw [hfl, min_eq_right hub, max_eq_right (by omega)]

/-- A dropped written-book entity at a non-negative fractional position,
used to instantiate `entity_position_cast`. -/
def droppedWrittenBookEntity : Entity :=
  { id := "minecraft:item".data,
    pos := [mkRat 7 2, mkRat 64 1, mkRat 9 4],
    item := some { id := "minecraft:written_book".data, slot := none,
                   count := 1,
                   tag := some { pages := some ["p".data], title := none,
                                 author := none } } }

theorem entity_position_cast_witness :
    entityStepLegacy droppedWrittenBookEntity =
      some [{ book := { pages := some ["p".data], title := none,
                        author := none },
              x := f64AsI32 (mkRat 7 2), y := f64AsI32 (mkRat 64 1),
              z := f64AsI32 (mkRat 9 4) }] ∧
    f64AsI32 (mkRat 7 2) = Int.floor (mkRat 7 2) :=
  ⟨(entity_position_cast droppedWrittenBookEntity
      { id := "minecraft:written_book".data, slot := none, count := 1,
        tag := some { pages := some ["p".data], title := none,
                      author := none } }
      { pages := some ["p".data], title := none, author := none }
      ["p".data] (mkRat 7 2) (mkRat 64 1) (mkRat 9 4)).1
      rfl (by decide) (by decide) rfl rfl rfl,
   (entity_position_cast droppedWrittenBookEntity
      { id := "minecraft:written_book".data, slot := none, count := 1,
        tag := some { pages := some ["p".data], title := none,
                      author := none } }
      { pages := some ["p".data], title := none, author := none }
      ["p".data] (mkRat 7 2) (mkRat 64 1) (mkRat 9 4)).2
      (mkRat 7 2) (by decide)
      (by rw [Rat.mkRat_eq_divInt, Rat.divInt_eq_div]; norm_num)⟩

/-! ### The signs reporter (main.rs lines 264-330)

`main` writes one block per sign: a header line, four `text: ` lines and a
blank line.  For a modern world each stored line is first deserialized with
`serde_json::from_str::<SignText>(...)` and `.unwrap()`ped; `serde_json` is
an external dependency, so the renderer below is parametric in the parse
function `parse : Str → Option SignText` (`none` models `Err`, and the
subsequent `.unwrap()` panic is the renderer's `none`).  Writing a line is
modelled by producing it in the output list. -/

/-- The Rust `{}` display of an `i32`. -/
def intToStr (i : Int) : Str := (Int.repr i).data

/-- The sign header line (main.rs line 268). -/
def signHeader (sign : ChunkLevelTileEntities) : Str :=
  "========== sign location: ".data ++ intToStr sign.x ++ ",".data ++
    intToStr sign.y ++ ",".data ++ intToStr sign.z ++ " ==========".data

/-- One `text: ` line of a modern sign (main.rs lines 277-285): the root
`text` concatenated with the `text` of each `extra` entry, in order, style
fields discarded. -/
def signTextLine (st : SignText) : Str :=
  "text: ".data ++
    (match st.extra with
     | some extras => extras.foldl (fun t e => t ++ e.text) st.text
     | none => st.text)

/-- Rendering of one sign record (main.rs lines 267-330).  The modern branch
(`version.name != "old"`) unwraps each `Text<i>` slot and its JSON parse in
order; the legacy branch unwraps each slot and emits it verbatim.  `none`
models the panic of any of those unwraps, which aborts the program. -/
def renderSign (version : LevelDatDataVersion)
    (parse : Str → Option SignText) (sign : ChunkLevelTileEntities) :
    Option (List Str) :=
  if version.name ≠ "old".data then do
    let t1 ← sign.text1
    let st1 ← parse t1
    let t2 ← sign.text2
    let st2 ← parse t2
    let t3 ← sign.text3
    let st3 ← parse t3
    let t4 ← sign.text4
    let st4 ← parse t4
    pure [signHeader sign, signTextLine st1, signTextLine st2,
          signTextLine st3, signTextLine st4, []]
  else do
    let t1 ← sign.text1
    let t2 ← sign.text2
    let t3 ← sign.text3
    let t4 ← sign.text4
    pure [signHeader sign, "text: ".data ++ t1, "text: ".data ++ t2,
          "text: ".data ++ t3, "text: ".data ++ t4, []]

/-- The signs output loop (main.rs line 267): a panic while rendering one
sign aborts the whole report. -/
def renderSigns (version : LevelDatDataVersion)
    (parse : Str → Option SignText) :
    List ChunkLevelTileEntities → Option (List Str)
  | [] => some []
  | s :: rest =>
    match renderSign version parse s with
    | none => none
    | some ls =>
      match renderSigns version parse rest with
      | none => none
      | some rs => some (ls ++ rs)

/-- The synthetic legacy version descriptor (main.rs lines 190-196). -/
def oldVersion : LevelDatDataVersion :=
  { id := 1343, name := "old".data, snapshot := false }

/-- A 1.18 version descriptor. -/
def modernVersion : LevelDatDataVersion :=
  { id := 2860, name := "1.18".data, snapshot := false }

/-- A legacy sign tile entity whose `Text1` slot is missing. -/
def slotlessSign : ChunkLevelTileEntities :=
  { id := "Sign".data, x := 0, y := 0, z := 0, text1 := none,
    text2 := some "a".data, text3 := some "b".data, text4 := some "c".data,
    items := none }

/-- C6 counterexample: a sign tile entity with a missing line slot is not
"treated as a parse error for that chunk" — the legacy extractor appends it
to the signs list — and it does crash the program: the reporter's
`sign.text1.unwrap()` panics, aborting the whole signs report. -/
theorem missing_sign_line_counterexample :
    tileEntityStepLegacy slotlessSign = ([slotlessSign], []) ∧
    renderSigns oldVersion (fun _ => none) [slotlessSign] = none := by decide

/-- C6 amended: a sign with a missing line slot is still appended to the
signs list and makes the reporter panic (aborting the whole report); only a
sign with all four slots present renders its four `text: ` lines (legacy
branch shown; the modern branch additionally needs all four JSON parses to
succeed). -/
theorem sign_line_slots (v : LevelDatDataVersion)
    (parse : Str → Option SignText) (s : ChunkLevelTileEntities)
    (rest : List ChunkLevelTileEntities) (t1 t2 t3 t4 : Str) :
    (s.text1 = none → renderSigns v parse (s :: rest) = none) ∧
    (v.name = "old".data → s.text1 = some t1 → s.text2 = some t2 →
      s.text3 = some t3 → s.text4 = some t4 →
      renderSign v parse s =
        some [signHeader s, "text: ".data ++ t1, "text: ".data ++ t2,
              "text: ".data ++ t3, "text: ".data ++ t4, []]) := by
  constructor
  · intro h
    unfold renderSigns renderSign
    by_cases hv : v.name = "old".data <;> simp [hv, h]
  · intro hv h1 h2 h3 h4
    unfold renderSign
    simp [hv, h1, h2, h3, h4]

/-- A legacy sign with all four slots present. -/
def legacyFullSign : ChunkLevelTileEntities :=
  { id := "Sign".data, x := 1, y := 2, z := 3, text1 := some "L1".data,
    text2 := some "L2".data, text3 := some "L3".data,
    text4 := some "L4".data, items := none }

theorem sign_line_slots_witness :
    renderSigns oldVersion (fun _ => none) [slotlessSign] = none ∧
    renderSign oldVersion (fun _ => none) legacyFullSign =
      some [signHeader legacyFullSign, "text: ".data ++ "L1".data,
            "text: ".data ++ "L2".data, "text: ".data ++ "L3".data,
            "text: ".data ++ "L4".data, []] :=
  ⟨(sign_line_slots oldVersion (fun _ => none) slotlessSign [] [] [] []
      []).1 rfl,
   (sign_line_slots oldVersion (fun _ => none) legacyFullSign []
      "L1".data "L2".data "L3".data "L4".data).2 rfl rfl rfl rfl rfl⟩

/-- The JSON text `{"text":"hi"}` of the well-formed sign lines. -/
def jsonHi : Str := "\x7b\"text\":\"hi\"\x7d".data

/-- A concrete parse function standing in for
`serde_json::from_str::<SignText>`: it accepts exactly the line `jsonHi`
(as the real parser does) and rejects the malformed line `"oops"`. -/
def serdeStub (s : Str) : Option SignText :=
  if s = jsonHi then some { text := "hi".data, extra := none } else none

/-- A modern sign whose four lines are all well-formed JSON. -/
def goodSign : ChunkLevelTileEntities :=
  { id := "minecraft:oak_sign".data, x := 10, y := 64, z := -5,
    text1 := some jsonHi, text2 := some jsonHi, text3 := some jsonHi,
    text4 := some jsonHi, items := none }

/-- A modern sign whose first line is not valid JSON. -/
def badSign : ChunkLevelTileEntities :=
  { id := "minecraft:oak_sign".data, x := 0, y := 0, z := 0,
    text1 := some "oops".data, text2 := some jsonHi, text3 := some jsonHi,
    text4 := some jsonHi, items := none }

/-- C8 counterexample: a malformed JSON line is not confined to its own
line.  `goodSign` renders on its own, but as soon as `badSign`'s first line
fails to parse, the `serde_json::from_str(...).unwrap()` panic aborts the
whole report: nothing is rendered as an empty string and `goodSign` is not
emitted at all. -/
theorem malformed_sign_line_counterexample :
    serdeStub "oops".data = none ∧
    renderSign modernVersion serdeStub goodSign =
      some [signHeader goodSign, "text: hi".data, "text: hi".data,
            "text: hi".data, "text: hi".data, []] ∧
    renderSigns modernVersion serdeStub [badSign, goodSign] = none := by
  decide

/-- C8 amended: in a modern world a sign line that fails to parse as JSON
panics the reporter: the whole signs report aborts (no line is degraded to
an empty string and the remaining signs are not emitted). -/
theorem malformed_sign_line_aborts (v : LevelDatDataVersion)
    (parse : Str → Option SignText) (s : ChunkLevelTileEntities)
    (rest : List ChunkLevelTileEntities) (t : Str) :
    v.name ≠ "old".data → s.text1 = some t → parse t = none →
    renderSigns v parse (s :: rest) = none := by
  intro hv h1 hp
  unfold renderSigns renderSign
  simp [hv, h1, hp]

theorem malformed_sign_line_aborts_witness :
    modernVersion.name ≠ "old".data ∧
    badSign.text1 = some "oops".data ∧
    serdeStub "oops".data = none ∧
    renderSigns modernVersion serdeStub [badSign, goodSign] = none :=
  ⟨by decide, rfl, by decide,
   malformed_sign_line_aborts modernVersion serdeStub badSign [goodSign]
     "oops".data (by decide) rfl (by decide)⟩

/-! ### Book page normalization (main.rs lines 374-410) -/

/-- Rust `str::replace(pat, rep)`: replace every leftmost non-overlapping
occurrence of `pat` by `rep`, scanning left to right.  (All patterns the
program uses are non-empty.) -/
def replaceAll (pat rep : Str) : Str → Str
  | [] => []
  | c :: rest =>
    if pat ≠ [] ∧ pat.isPrefixOf (c :: rest) then
      rep ++ replaceAll pat rep (rest.drop (pat.length - 1))
    else c :: replaceAll pat rep rest
termination_by s => s.length
decreasing_by
  · simp only [List.length_cons, List.length_drop]
    omega
  · simp

/-- The page strip of the books reporter (main.rs lines 374-410): the chain
of `replace` calls in source order — `§` followed by each formatting
character — and then the final strip of any remaining bare `§`. -/
def stripPage (page : Str) : Str :=
  let p := replaceAll "§k".data [] page
  let p := replaceAll "§l".data [] p
  let p := replaceAll "§L".data [] p
  let p := replaceAll "§m".data [] p
  let p := replaceAll "§M".data [] p
  let p := replaceAll "§n".data [] p
  let p := replaceAll "§N".data [] p
  let p := replaceAll "§o".data [] p
  let p := replaceAll "§O".data [] p
  let p := replaceAll "§r".data [] p
  let p := replaceAll "§R".data [] p
  let p := replaceAll "§a".data [] p
  let p := replaceAll "§A".data [] p
  let p := replaceAll "§b".data [] p
  let p := replaceAll "§B".data [] p
  let p := replaceAll "§c".data [] p
  let p := replaceAll "§C".data [] p
  let p := replaceAll "§d".data [] p
  let p := replaceAll "§D".data [] p
  let p := replaceAll "§e".data [] p
  let p := replaceAll "§E".data [] p
  let p := replaceAll "§f".data [] p
  let p := replaceAll "§F".data [] p
  let p := replaceAll "§K".data [] p
  let p := replaceAll "§0".data [] p
  let p := replaceAll "§1".data [] p
  let p := replaceAll "§2".data [] p
  let p := replaceAll "§3".data [] p
  let p := replaceAll "§4".data [] p
  let p := replaceAll "§5".data [] p
  let p := replaceAll "§6".data [] p
  let p := replaceAll "§7".data [] p
  let p := replaceAll "§8".data [] p
  let p := replaceAll "§9".data [] p
  replaceAll "§".data [] p

/-- Replacing the single-character pattern `[c]` by the empty string removes
every occurrence of `c`. -/
theorem not_mem_replaceAll_single (c : Char) :
    ∀ s : Str, c ∉ replaceAll [c] [] s := by
  intro s
  induction s with
  | nil => simp [replaceAll]
  | cons a rest ih =>
    rw [replaceAll]
    by_cases h : a = c
    · subst h
      have hp : ([a].isPrefixOf (a :: rest)) = true := by
        simp [List.isPrefixOf]
      simp only [ne_eq, List.cons_ne_nil, not_false_iff, hp, and_self,
        if_true, List.nil_append, true_and, List.length_cons,
        List.length_nil, List.drop_zero]
      simpa using ih
    · have hp : ([c].isPrefixOf (a :: rest)) = false := by
        simp [List.isPrefixOf, h]
        intro hc
        exact absurd hc.symm h
      simp only [ne_eq, List.cons_ne_nil, not_false_iff, hp, and_false,
        Bool.false_eq_true, if_false, true_and, List.mem_cons]
      rintro (hc | hc)
      · exact h hc.symm
      · exact ih hc

/-- C9: no `§` character remains in any book page body after the formatting
strip — the final bare-`§` replace removes every remaining occurrence. -/
theorem no_section_sign_in_pages (page : Str) : '§' ∉ stripPage page := by
  have hd : "§".data = ['§'] := by decide
  unfold stripPage
  rw [hd]
  exact not_mem_replaceAll_single '§' _

/-! ### Result sorting in `main` (main.rs lines 244-258) -/

/-- Rust `i32::cmp`. -/
def intCmp (a b : Int) : Ordering :=
  if a < b then Ordering.lt else if a = b then Ordering.eq else Ordering.gt

/-- The sign comparator (main.rs lines 245-247):
`a.x.cmp(&b.x).then(a.z.cmp(&b.z)).then(a.y.cmp(&b.y))`. -/
def signCmp (a b : ChunkLevelTileEntities) : Ordering :=
  ((intCmp a.x b.x).then (intCmp a.z b.z)).then (intCmp a.y b.y)

/-- The book comparator (main.rs lines 256-258), identical on `(x, z, y)`. -/
def bookCmp (a b : BookWithPos) : Ordering :=
  ((intCmp a.x b.x).then (intCmp a.z b.z)).then (intCmp a.y b.y)

/-- The non-strict order induced by a Rust `sort_by` comparator: the output
is ordered so that consecutive elements never compare `Greater`. -/
def signLe (a b : ChunkLevelTileEntities) : Bool :=
  !(signCmp a b == Ordering.gt)

def bookLe (a b : BookWithPos) : Bool :=
  !(bookCmp a b == Ordering.gt)

/-- `signs.sort_by(...)` (main.rs lines 245-247): a stable sort agreeing
with the comparator, modelled by `List.mergeSort`. -/
def sortSigns (signs : List ChunkLevelTileEntities) :
    List ChunkLevelTileEntities :=
  signs.mergeSort signLe

/-- `books.sort_by(...)` (main.rs lines 256-258). -/
def sortBooks (books : List BookWithPos) : List BookWithPos :=
  books.mergeSort bookLe

theorem signLe_iff (a b : ChunkLevelTileEntities) :
    signLe a b = true ↔
      (a.x < b.x ∨ (a.x = b.x ∧ (a.z < b.z ∨ (a.z = b.z ∧ a.y ≤ b.y)))) := by
  unfold signLe signCmp intCmp
  split_ifs <;>
    simp [Ordering.then,
      show (Ordering.lt == Ordering.gt) = false from rfl,
      show (Ordering.eq == Ordering.gt) = false from rfl,
      show (Ordering.gt == Ordering.gt) = true from rfl] <;>
    omega

theorem bookLe_iff (a b : BookWithPos) :
    bookLe a b = true ↔
      (a.x < b.x ∨ (a.x = b.x ∧ (a.z < b.z ∨ (a.z = b.z ∧ a.y ≤ b.y)))) := by
  unfold bookLe bookCmp intCmp
  split_ifs <;>
    simp [Ordering.then,
      show (Ordering.lt == Ordering.gt) = false from rfl,
      show (Ordering.eq == Ordering.gt) = false from rfl,
      show (Ordering.gt == Ordering.gt) = true from rfl] <;>
    omega

theorem signLe_trans (a b c : ChunkLevelTileEntities) :
    signLe a b → signLe b c → signLe a c := by
  intro hab hbc
  rw [signLe_iff] at *
  omega

theorem signLe_total (a b : ChunkLevelTileEntities) :
    signLe a b || signLe b a := by
  rw [Bool.or_eq_true, signLe_iff, signLe_iff]
  omega

theorem bookLe_trans (a b c : BookWithPos) :
    bookLe a b → bookLe b c → bookLe a c := by
  intro hab hbc
  rw [bookLe_iff] at *
  omega

theorem bookLe_total (a b : BookWithPos) :
    bookLe a b || bookLe b a := by
  rw [Bool.or_eq_true, bookLe_iff, bookLe_iff]
  omega

/-- C7: after sorting, both result lists are ascending in the lexicographic
key `(x, z, y)`: for any two consecutive signs, and any two consecutive
books, `(a.x, a.z, a.y) ≤ (b.x, b.z, b.y)` lexicographically. -/
theorem sorted_output (signs : List ChunkLevelTileEntities)
    (books : List BookWithPos) :
    List.Chain'
      (fun a b =>
        a.x < b.x ∨ (a.x = b.x ∧ (a.z < b.z ∨ (a.z = b.z ∧ a.y ≤ b.y))))
      (sortSigns signs) ∧
    List.Chain'
      (fun a b =>
        a.x < b.x ∨ (a.x = b.x ∧ (a.z < b.z ∨ (a.z = b.z ∧ a.y ≤ b.y))))
      (sortBooks books) := by
  constructor
  · have hp := List.sorted_mergeSort signLe_trans signLe_total signs
    exact (hp.imp fun h => (signLe_iff _ _).mp h).chain'
  · have hp := List.sorted_mergeSort bookLe_trans bookLe_total books
    exact (hp.imp fun h => (bookLe_iff _ _).mp h).chain'

end MC
